import Mathlib

/-!
Shallow embedding of `src/csv.hpp` (`basic_csv<char>`, a one-shot CSV
reader/writer).  Files are modelled as `List Char`; `std::basic_string`
cells become `String`; a table (`basic_csv`) becomes the structure `Csv`.
Exceptions become `Except`/explicit result constructors, and the
out-of-bounds `m_rows.back()` access on the `add_row` failure path is made
explicit as an `undef` result.
-/

namespace CsvModel

/-- A row: `std::vector<std::basic_string<Ch>>` (`row_t` in the source). -/
abbrev Row := List String

/-- The table `basic_csv<Ch>`: immutable separator, header, data rows. -/
structure Csv where
  separator : Char
  header : Row
  rows : List Row
deriving DecidableEq, Repr

/-- Models `basic_csv(const char separator)`: header and rows start empty. -/
def mkCsv (sep : Char) : Csv := { separator := sep, header := [], rows := [] }

/-- Models `basic_csv()`: the default constructor uses `,` as separator. -/
def mkCsvDefault : Csv := mkCsv ','

/-- Models `clear()`: clears the header, each row, and the row container;
the separator member is `const` and untouched. -/
def Csv.clear (c : Csv) : Csv := { c with header := [], rows := [] }

/-- Models `set_header(columns_names)`: replaces the header wholesale. -/
def Csv.set_header (c : Csv) (columns_names : Row) : Csv :=
  { c with header := columns_names }

/-- Result of `add_row`.  `undef` models the C++ undefined behaviour of
`m_rows.back()` when `m_rows` is empty (evaluated while building the
error message, before the exception is thrown). -/
inductive AddRowResult where
  | ok (c : Csv)
  | err (msg : String)
  | undef
deriving DecidableEq, Repr

/-- Models `add_row(row)`: throws when `row.size() != m_header.size()`; the message
is built from `m_rows.back().size()` (the last *stored* row, not the
argument), which is out of bounds when `m_rows` is empty. -/
def Csv.add_row (c : Csv) (r : Row) : AddRowResult :=
  if r.length ≠ c.header.length then
    match c.rows.getLast? with
    | none => .undef
    | some last =>
        .err ("basic_csv::load: row has different size than header ( " ++
              toString last.length ++ " != " ++ toString c.header.length ++ " ).")
  else .ok { c with rows := c.rows ++ [r] }

/-- Models `row(idx)`: throws when `idx >= m_rows.size()`, else returns `m_rows[idx]`. -/
def Csv.row (c : Csv) (idx : Nat) : Except String Row :=
  if idx ≥ c.rows.length then
    .error ("basic_csv::row: index (" ++ toString idx ++ ") out of bounds.")
  else .ok (c.rows.getD idx [])

/-- Models `std::getline` with an arbitrary delimiter: returns the characters up to
(excluding) the first occurrence of `sep`, and the rest after consuming that
occurrence.  At end of input it extracts nothing (the C++ call fails and the
target keeps its empty default). -/
def splitAtChar (sep : Char) : List Char → List Char × List Char
  | [] => ([], [])
  | c :: cs =>
    if c = sep then ([], cs)
    else
      let p := splitAtChar sep cs
      (c :: p.1, p.2)

/-- Models `std::getline(file, line)`: one line up to the next `\n`, plus the rest. -/
def getline (file : List Char) : List Char × List Char := splitAtChar '\n' file

/-- The parsing loop of `read_line`: the row is pre-sized to `column_count`
empty strings and each `std::getline(line_ss, row[col], m_separator)` fills one
field; once the line stream is exhausted the remaining fields stay empty. -/
def parseFields (sep : Char) : Nat → List Char → List String
  | 0, _ => []
  | n + 1, s =>
    let p := splitAtChar sep s
    String.mk p.1 :: parseFields sep n p.2

/-- Models `read_line(file, column_count)`: copies one whole line out of the stream,
then extracts exactly `column_count` delimiter-bounded fields from it.
Returns the parsed row and the remaining stream content. -/
def read_line (sep : Char) (file : List Char) (column_count : Nat) :
    Row × List Char :=
  let p := getline file
  (parseFields sep column_count p.1, p.2)

/-- The row-reading loop of `load`: `row_count` iterations, each pushing
`read_line(file, column_count)` and throwing if the pushed row's size differs
from the header's.  `acc` is the current `m_rows` (not cleared by `load`). -/
def loadLoop (sep : Char) (cc hdrLen : Nat) :
    Nat → Nat → List Char → List Row → Except String (List Row)
  | 0, _, _, acc => .ok acc
  | n + 1, idx, file, acc =>
    let p := read_line sep file cc
    if p.1.length ≠ hdrLen then
      .error ("basic_csv::load: row[" ++ toString idx ++
              "] has different size than header ( " ++ toString p.1.length ++
              " != " ++ toString hdrLen ++ " ).")
    else loadLoop sep cc hdrLen n (idx + 1) p.2 (acc ++ [p.1])

/-- Models `load(filename)` on an already-opened file with content `content`:
counts `\n` characters for `row_count`, derives `column_count` from the first
line, reads the header, then reads `row_count` data rows.  Note that `m_rows`
is not cleared first: parsed rows are appended after any existing rows. -/
def Csv.load (c : Csv) (content : List Char) : Except String Csv :=
  let row_count := content.count '\n'
  let temp := (getline content).1
  let column_count := if temp.length > 0 then temp.count c.separator + 1 else 0
  let p := read_line c.separator content column_count
  match loadLoop c.separator column_count p.1.length row_count 0 p.2 c.rows with
  | .ok rs => .ok { c with header := p.1, rows := rs }
  | .error e => .error e

/-- Models `write_line(file, line)`: writes `line[0]`, then `separator line[i]` for
each further field, then `"\n"`.  (The C++ indexes `line[0]` unconditionally,
out of bounds for an empty line; every claim exercises nonempty lines only,
and the empty case here contributes just the newline.) -/
def write_line (sep : Char) (line : Row) : List Char :=
  match line with
  | [] => ['\n']
  | f :: fs => f.data ++ (fs.map (fun g => sep :: g.data)).flatten ++ ['\n']

/-- Models `save(filename)`: header line first, then each row, via `write_line`. -/
def Csv.save (c : Csv) : List Char :=
  write_line c.separator c.header ++ (c.rows.map (write_line c.separator)).flatten

/-!
Derived descriptions of what `load` computes, used to characterize it once
and for all: the column count taken from the first line, the header row, and
the sequence of data rows read by the loop.
-/

/-- The `column_count` computed inside `load`: delimiter occurrences in the
first line plus one, or zero for an empty first line. -/
def ccOf (sep : Char) (content : List Char) : Nat :=
  if (getline content).1.length > 0 then (getline content).1.count sep + 1 else 0

/-- The header `load` stores: the first line parsed with `ccOf` fields. -/
def hdrOf (sep : Char) (content : List Char) : Row :=
  (read_line sep content (ccOf sep content)).1

/-- The rows produced by `n` successive `read_line` calls with `cc` columns. -/
def parsedRows (sep : Char) (cc : Nat) : Nat → List Char → List Row
  | 0, _ => []
  | n + 1, file =>
    let p := read_line sep file cc
    p.1 :: parsedRows sep cc n p.2

/-- The data rows `load` appends: newline-count many rows read after the
header line, each with `ccOf` fields. -/
def bodyOf (sep : Char) (content : List Char) : List Row :=
  parsedRows sep (ccOf sep content) (content.count '\n')
    (read_line sep content (ccOf sep content)).2

lemma parseFields_length (sep : Char) (n : Nat) (s : List Char) :
    (parseFields sep n s).length = n := by
  induction n generalizing s with
  | zero => rfl
  | succ n ih => simp [parseFields, ih]

lemma read_line_fst_length (sep : Char) (file : List Char) (cc : Nat) :
    ((read_line sep file cc).1).length = cc := by
  simp [read_line, parseFields_length]

lemma loadLoop_ok (sep : Char) (cc : Nat) (n idx : Nat) (file : List Char)
    (acc : List Row) :
    loadLoop sep cc cc n idx file acc = .ok (acc ++ parsedRows sep cc n file) := by
  induction n generalizing idx file acc with
  | zero => simp [loadLoop, parsedRows]
  | succ n ih => simp [loadLoop, parsedRows, read_line_fst_length, ih]

/-- Full characterization of `load`: it always succeeds, replaces the header
with `hdrOf`, and appends `bodyOf` after the rows already stored. -/
lemma load_eq (c : Csv) (content : List Char) :
    c.load content =
      .ok { separator := c.separator, header := hdrOf c.separator content,
            rows := c.rows ++ bodyOf c.separator content } := by
  simp [Csv.load, hdrOf, bodyOf, ccOf, read_line_fst_length, loadLoop_ok]

/-!  Claim theorems. -/

/-- The concrete table of the round-trip property: header `["a","b","c"]`,
rows `[["1","2","3"],["4","5","6"]]`. -/
def tableC1 : Csv :=
  { separator := ',', header := ["a","b","c"],
    rows := [["1","2","3"],["4","5","6"]] }

/-- C1: save-then-load of the table with header `["a","b","c"]` and rows
`[["1","2","3"],["4","5","6"]]` does NOT round-trip: `save` terminates every
line with a newline, the newline count (3) is taken as the data-row count, and
the third read past the end yields an extra all-empty row, so the loaded row
sequence differs from the original. -/
theorem save_load_roundtrip_adds_empty_row :
    (mkCsv ',').load tableC1.save =
      .ok { separator := ',', header := ["a","b","c"],
            rows := [["1","2","3"],["4","5","6"],["","",""]] } ∧
    ([["1","2","3"],["4","5","6"],["","",""]] : List Row) ≠ tableC1.rows :=
  ⟨rfl, by decide⟩

/-- C2 counterexample: on the file content `"x,y\n1,2\n3,4\n"` (each line
newline-terminated, as `save` writes and §6 of the spec prescribes), `load`
stores THREE data rows — the extra `["",""]` comes from the third loop
iteration reading past the end of the file — so `rows()` is not
`[["1","2"],["3","4"]]`. -/
theorem load_trailing_newline_extra_row :
    (mkCsv ',').load (String.data "x,y\n1,2\n3,4\n") =
      .ok { separator := ',', header := ["x","y"],
            rows := [["1","2"],["3","4"],["",""]] } ∧
    ([["1","2"],["3","4"],["",""]] : List Row) ≠ [["1","2"],["3","4"]] :=
  ⟨rfl, by decide⟩

/-- C2 amended: when the file content is `"x,y\n1,2\n3,4"` with NO newline
after the last data line, `load` succeeds with `header() = ["x","y"]` and
exactly the two data rows `[["1","2"],["3","4"]]`. -/
theorem load_two_lines_no_trailing_newline :
    (mkCsv ',').load (String.data "x,y\n1,2\n3,4") =
      .ok { separator := ',', header := ["x","y"],
            rows := [["1","2"],["3","4"]] } := rfl

/-- C3 counterexample: a table already holding the row `["old1","old2"]`
keeps that row after a successful `load` — the parsed rows are appended after
it, so the prior row remains in `rows()`. -/
theorem load_keeps_prior_rows :
    (Csv.mk ',' ["p","q"] [["old1","old2"]]).load (String.data "x,y\n1,2") =
      .ok { separator := ',', header := ["x","y"],
            rows := [["old1","old2"],["1","2"]] } ∧
    (["old1","old2"] : Row) ∈ ([["old1","old2"],["1","2"]] : List Row) :=
  ⟨rfl, by decide⟩

/-- C3 amended: a successful `load` replaces the header but APPENDS the rows
parsed from the file after any pre-existing rows; prior rows are not removed
(`m_rows` is never cleared by `load`). -/
theorem load_replaces_header_appends_rows (c : Csv) (content : List Char) :
    ∃ t, c.load content = .ok t ∧ t.separator = c.separator ∧
      t.header = hdrOf c.separator content ∧
      t.rows = c.rows ++ bodyOf c.separator content :=
  ⟨_, load_eq c content, rfl, rfl, rfl⟩

/-- C4: on a table with header `["a"]` and NO stored rows, `add_row` with the
mismatched row `["x","y"]` evaluates `m_rows.back()` on the empty row vector
(out-of-bounds, undefined behaviour) while building the error message, before
any exception is thrown — it does not fail cleanly with a size-mismatch
error. -/
theorem add_row_empty_table_out_of_bounds :
    Csv.add_row { separator := ',', header := ["a"], rows := [] } ["x","y"] =
      .undef := rfl

/-- C5: `row(idx)` fails exactly when `idx ≥ rows().length`, and for every
in-range `idx` it returns the row stored at position `idx`. -/
theorem row_in_range_iff (c : Csv) (idx : Nat) :
    ((∃ msg, c.row idx = .error msg) ↔ c.rows.length ≤ idx) ∧
    (∀ h : idx < c.rows.length, c.row idx = .ok (c.rows.get ⟨idx, h⟩)) := by
  refine ⟨⟨?_, ?_⟩, ?_⟩
  · rintro ⟨msg, hmsg⟩
    by_contra hlt
    rw [Csv.row, if_neg (by omega)] at hmsg
    exact Except.noConfusion hmsg
  · intro h
    exact ⟨_, by rw [Csv.row, if_pos h]⟩
  · intro h
    rw [Csv.row, if_neg (by omega), List.getD_eq_getElem _ _ h]
    rfl

/-- The two-row table used to witness the `row(idx)` bounds behaviour. -/
def tableC5 : Csv :=
  { separator := ',', header := ["x","y"], rows := [["1","2"],["3","4"]] }

/-- C5 witness: on a two-row table, index 1 returns the stored second row and
index 2 fails. -/
theorem row_in_range_iff_witness :
    tableC5.row 1 = .ok ["3","4"] ∧
    (∃ msg, tableC5.row 2 = .error msg) :=
  ⟨(row_in_range_iff tableC5 1).2 (by decide),
   (row_in_range_iff tableC5 2).1.mpr (by decide)⟩

/-- C6: for every table, `clear()` empties the header and the rows and keeps
the separator, leaving exactly the just-constructed table with the same
delimiter. -/
theorem clear_resets_to_fresh (c : Csv) :
    c.clear.header = [] ∧ c.clear.rows = [] ∧ c.clear = mkCsv c.separator := by
  cases c
  exact ⟨rfl, rfl, rfl⟩

/-- C7 counterexample: on the file `"x,y\n1,2\n3"`, whose second data line has
a single field where the header implies two, `load` SUCCEEDS (no
size-mismatch error): `read_line` pads the missing field with an empty
string. -/
theorem load_short_second_line_succeeds :
    (mkCsv ',').load (String.data "x,y\n1,2\n3") =
      .ok { separator := ',', header := ["x","y"],
            rows := [["1","2"],["3",""]] } := rfl

/-- C7 amended: `load` on a file whose second data line has only one field
where the header implies two succeeds without error; the short line is parsed
as `["3",""]`, its missing trailing field padded with the empty string. -/
theorem load_short_second_line_padded :
    ∃ t, (mkCsv ',').load (String.data "x,y\n1,2\n3") = .ok t ∧
      t.rows = [["1","2"],["3",""]] ∧ t.header = ["x","y"] :=
  ⟨_, rfl, rfl, rfl⟩

/-- C8: `load` always succeeds and stores a header whose width — the
`column_count` every row is parsed with — is the number of delimiter
occurrences in the first line plus one when the first line is nonempty, and
zero when the first line is empty; the formula depends on the first line
only. -/
theorem load_column_count_from_first_line (c : Csv) (content : List Char) :
    ∃ t, c.load content = .ok t ∧
      t.header.length =
        (if 0 < ((getline content).1).length
         then ((getline content).1).count c.separator + 1 else 0) :=
  ⟨_, load_eq c content, by simp [hdrOf, ccOf, read_line_fst_length]⟩

/-- C9: `read_line` returns exactly `column_count` fields for every stream
state and count (short or empty lines are padded, never shorter), and
consequently `load` never takes its size-mismatch error branch: it succeeds
on every input. -/
theorem read_line_exact_width_mismatch_unreachable :
    (∀ (sep : Char) (file : List Char) (cc : Nat),
        ((read_line sep file cc).1).length = cc) ∧
    (∀ (c : Csv) (content : List Char), ∃ t, c.load content = .ok t) :=
  ⟨read_line_fst_length, fun c content => ⟨_, load_eq c content⟩⟩

/-- C10: the failure path of `add_row` builds its message from the LAST
STORED row (`m_rows.back()`), not from the rejected argument: with no stored
rows it dereferences the back of an empty vector (modelled `undef`); with a
last stored row the message reports that row's length; and any two rejected
arguments produce the identical result. -/
theorem add_row_msg_uses_last_stored_row (c : Csv) (r r' : Row) :
    (c.rows = [] → r.length ≠ c.header.length → c.add_row r = .undef) ∧
    (∀ last, c.rows.getLast? = some last → r.length ≠ c.header.length →
        c.add_row r =
          .err ("basic_csv::load: row has different size than header ( " ++
                toString last.length ++ " != " ++
                toString c.header.length ++ " ).")) ∧
    (r.length ≠ c.header.length → r'.length ≠ c.header.length →
        c.add_row r = c.add_row r') := by
  refine ⟨fun he hm => ?_, fun last hl hm => ?_, fun hm hm' => ?_⟩
  · rw [Csv.add_row, if_pos hm, he]
    rfl
  · rw [Csv.add_row, if_pos hm, hl]
  · rw [Csv.add_row, if_pos hm, Csv.add_row, if_pos hm']

/-- C10 witness: header `["a"]`, one stored row `["u","v"]`, rejected
argument `["x","y","z"]` of length 3 — the message reports `2 != 1`, the
stored row's length, not the argument's; and with no stored rows the result
is the out-of-bounds `undef`. -/
theorem add_row_msg_uses_last_stored_row_witness :
    Csv.add_row { separator := ',', header := ["a"], rows := [["u","v"]] }
        ["x","y","z"] =
      .err "basic_csv::load: row has different size than header ( 2 != 1 )." ∧
    Csv.add_row { separator := ',', header := ["b"], rows := [] } ["x","y"] =
      .undef :=
  ⟨(add_row_msg_uses_last_stored_row ⟨',', ["a"], [["u","v"]]⟩ ["x","y","z"]
      []).2.1 ["u","v"] rfl (by decide),
   (add_row_msg_uses_last_stored_row ⟨',', ["b"], []⟩ ["x","y"] []).1 rfl
      (by decide)⟩

end CsvModel
